import Mathlib

/-!
Verification of the password-strength analyzer (`password_analyzer.py`).

The Python source is shallowly embedded: a password is a list of Unicode
characters (`List Char`), Python integers are `ℤ`/`ℕ`, and the float
arithmetic of the entropy estimator is modelled exactly over `ℚ` (the
float literal `3.321928` becomes the rational `3321928/1000000`, and
Python's `round(x, 2)` becomes rounding of `100 * x` to an integer,
divided by `100`; on every value appearing in a theorem below, `100 * x`
is not a half-integer, so round-half-up and Python's round-half-to-even
agree).  `str.lower()` is modelled characterwise by the ASCII case map
(every string the analyzer compares lowered input against is ASCII).
-/

namespace PasswordAnalyzer

/-- The fixed denylist `self.common_passwords` from `PasswordAnalyzer.__init__`. -/
def common_passwords : List (List Char) :=
  ["password".data, "123456".data, "12345678".data, "qwerty".data, "abc123".data,
   "monkey".data, "1234567".data, "letmein".data, "trustno1".data, "dragon".data,
   "baseball".data, "iloveyou".data, "master".data, "sunshine".data, "ashley".data,
   "bailey".data, "shadow".data, "123123".data, "654321".data, "superman".data]

/-- The character set of the regex `[!@#$%^&*(),.?":{}|<>]` used for `has_special`. -/
def specialCharacters : List Char := "!@#$%^&*(),.?\":\x7b\x7d|<>".data

/-- Code-point ranges of the Unicode `Nd` (decimal digit) category:
the characters matched by Python's `re` pattern `\d` on a `str`. -/
def ndRanges : List (Nat × Nat) :=
  [(0x30, 0x39), (0x660, 0x669), (0x6F0, 0x6F9), (0x7C0, 0x7C9),
   (0x966, 0x96F), (0x9E6, 0x9EF), (0xA66, 0xA6F), (0xAE6, 0xAEF),
   (0xB66, 0xB6F), (0xBE6, 0xBEF), (0xC66, 0xC6F), (0xCE6, 0xCEF),
   (0xD66, 0xD6F), (0xDE6, 0xDEF), (0xE50, 0xE59), (0xED0, 0xED9),
   (0xF20, 0xF29), (0x1040, 0x1049), (0x1090, 0x1099), (0x17E0, 0x17E9),
   (0x1810, 0x1819), (0x1946, 0x194F), (0x19D0, 0x19D9), (0x1A80, 0x1A89),
   (0x1A90, 0x1A99), (0x1B50, 0x1B59), (0x1BB0, 0x1BB9), (0x1C40, 0x1C49),
   (0x1C50, 0x1C59), (0xA620, 0xA629), (0xA8D0, 0xA8D9), (0xA900, 0xA909),
   (0xA9D0, 0xA9D9), (0xA9F0, 0xA9F9), (0xAA50, 0xAA59), (0xABF0, 0xABF9),
   (0xFF10, 0xFF19), (0x104A0, 0x104A9), (0x10D30, 0x10D39),
   (0x11066, 0x1106F), (0x110F0, 0x110F9), (0x11136, 0x1113F),
   (0x111D0, 0x111D9), (0x112F0, 0x112F9), (0x11450, 0x11459),
   (0x114D0, 0x114D9), (0x11650, 0x11659), (0x116C0, 0x116C9),
   (0x11730, 0x11739), (0x118E0, 0x118E9), (0x11950, 0x11959),
   (0x11C50, 0x11C59), (0x11D50, 0x11D59), (0x11DA0, 0x11DA9),
   (0x11F50, 0x11F59), (0x16A60, 0x16A69), (0x16AC0, 0x16AC9),
   (0x16B50, 0x16B59), (0x1D7CE, 0x1D7FF), (0x1E140, 0x1E149),
   (0x1E2F0, 0x1E2F9), (0x1E4F0, 0x1E4F9), (0x1E950, 0x1E959),
   (0x1FBF0, 0x1FBF9)]

/-- Whether a character is matched by the regex `\d` (any Unicode decimal digit). -/
def isRegexDigit (c : Char) : Bool :=
  ndRanges.any fun r => decide (r.1 ≤ c.toNat) && decide (c.toNat ≤ r.2)

/-- Python `str.lower()` modelled characterwise with the ASCII case map. -/
def pyLower (password : List Char) : List Char := password.map Char.toLower

/-- `_check_repeated_chars`: the loop
`for i in range(len(password) - 2): if password[i] == password[i+1] == password[i+2]: return True`,
written as structural recursion over the sliding window of width 3. -/
def checkRepeatedChars : List Char → Bool
  | c0 :: c1 :: c2 :: rest =>
      (c0 == c1 && c1 == c2) || checkRepeatedChars (c1 :: c2 :: rest)
  | _ => false

/-- Python's substring test `needle in haystack` on strings:
`needle` occurs contiguously inside `haystack`. -/
def containsSubstring (needle : List Char) : List Char → Bool
  | [] => needle.isEmpty
  | c :: rest => needle.isPrefixOf (c :: rest) || containsSubstring needle rest

/-- The motif list `sequences = ['abc', '123', 'xyz', 'qwe', 'asd']`
from `_check_sequential`. -/
def sequences : List (List Char) :=
  ["abc".data, "123".data, "xyz".data, "qwe".data, "asd".data]

/-- `_check_sequential`: lowercase the password, then test each motif and
its exact reversal (`seq[::-1]`) for substring occurrence. -/
def checkSequential (password : List Char) : Bool :=
  let password_lower := pyLower password
  sequences.any fun seq =>
    containsSubstring seq password_lower ||
      containsSubstring seq.reverse password_lower

/-- `Counter(password).values()`: the multiplicity of each distinct
character of the password (one entry per distinct character). -/
def counterValues (password : List Char) : List Nat :=
  password.dedup.map fun c => password.count c

/-- The float literal `3.321928` (an approximation of `1 / log10 2`)
from `_calculate_entropy`, as an exact rational. -/
def entropyConstant : ℚ := 3321928 / 1000000

/-- Python's truthiness-based `and` on floats:
`a and b` is `a` when `a == 0.0` and `b` otherwise. -/
def pyAnd (a b : ℚ) : ℚ := if a = 0 then a else b

/-- Python's `round(x, 2)` over the rational model. -/
def pyRound2 (x : ℚ) : ℚ := ((round (100 * x) : ℤ) : ℚ) / 100

/-- `_calculate_entropy`: for each distinct-character count, with
`probability = count / length`, execute
`entropy -= probability * (probability and (probability * 3.321928))`,
then return `round(entropy * length, 2)`.  For the empty password the
loop body never runs, so no division by zero occurs and the result is `0`. -/
def calculateEntropy (password : List Char) : ℚ :=
  let length := password.length
  let entropy := (counterValues password).foldl
    (fun entropy count =>
      let probability : ℚ := (count : ℚ) / (length : ℚ)
      entropy - probability * pyAnd probability (probability * entropyConstant))
    0
  pyRound2 (entropy * (length : ℚ))

/-- The detector fields of the `results` dict that `analyze_password`
assembles before calling `_calculate_strength`, `_get_strength_label`
and `_generate_recommendations` (these three read exactly these fields). -/
structure DetectorResults where
  length : Nat
  has_uppercase : Bool
  has_lowercase : Bool
  has_digits : Bool
  has_special : Bool
  is_common : Bool
  has_repeated : Bool
  has_sequential : Bool

/-- `_calculate_strength`: start from 0, apply the ten conditional
increments and decrements in source order, then clamp with
`max(0, min(100, score))`. -/
def calculateStrength (results : DetectorResults) : ℤ :=
  let score : ℤ := 0
  let score := if results.length ≥ 8 then score + 20 else score
  let score := if results.length ≥ 12 then score + 10 else score
  let score := if results.length ≥ 16 then score + 10 else score
  let score := if results.has_uppercase then score + 15 else score
  let score := if results.has_lowercase then score + 15 else score
  let score := if results.has_digits then score + 15 else score
  let score := if results.has_special then score + 15 else score
  let score := if results.is_common then score - 50 else score
  let score := if results.has_repeated then score - 10 else score
  let score := if results.has_sequential then score - 10 else score
  max 0 (min 100 score)

/-- `_get_strength_label`: the step function on the score. -/
def getStrengthLabel (score : ℤ) : String :=
  if score < 40 then "Weak"
  else if score < 70 then "Moderate"
  else if score < 90 then "Strong"
  else "Very Strong"

/-- `_generate_recommendations`: test the eight conditions in source
order, appending one fixed advice string per condition that holds, then
fall back to a single advice entry when the list is still empty. -/
def generateRecommendations (results : DetectorResults) : List String :=
  let recommendations : List String := []
  let recommendations := if results.length < 12 then
    recommendations ++ ["Increase length to at least 12 characters"] else recommendations
  let recommendations := if !results.has_uppercase then
    recommendations ++ ["Add uppercase letters"] else recommendations
  let recommendations := if !results.has_lowercase then
    recommendations ++ ["Add lowercase letters"] else recommendations
  let recommendations := if !results.has_digits then
    recommendations ++ ["Include numbers"] else recommendations
  let recommendations := if !results.has_special then
    recommendations ++ ["Add special characters (!@#$%^&*)"] else recommendations
  let recommendations := if results.is_common then
    recommendations ++ ["Avoid common passwords - choose something unique"] else recommendations
  let recommendations := if results.has_repeated then
    recommendations ++ ["Remove repeated character sequences"] else recommendations
  let recommendations := if results.has_sequential then
    recommendations ++ ["Avoid sequential patterns (abc, 123)"] else recommendations
  let recommendations := if recommendations = [] then
    ["Excellent! Consider using a password manager"] else recommendations
  recommendations

/-- The nine detector entries of the `results` dict built at the top of
`analyze_password` (each a direct translation of its regex or helper call). -/
def detectorResults (password : List Char) : DetectorResults where
  length := password.length
  has_uppercase := password.any fun c => decide ('A' ≤ c) && decide (c ≤ 'Z')
  has_lowercase := password.any fun c => decide ('a' ≤ c) && decide (c ≤ 'z')
  has_digits := password.any isRegexDigit
  has_special := password.any fun c => specialCharacters.contains c
  is_common := common_passwords.contains (pyLower password)
  has_repeated := checkRepeatedChars password
  has_sequential := checkSequential password

/-- The full `results` dict returned by `analyze_password`. -/
structure AnalysisResults extends DetectorResults where
  entropy : ℚ
  strength_score : ℤ
  strength_label : String
  recommendations : List String

/-- `analyze_password`: run the detectors, then derive score, label and
recommendations from them. -/
def analyze_password (password : List Char) : AnalysisResults :=
  let results := detectorResults password
  { results with
    entropy := calculateEntropy password
    strength_score := calculateStrength results
    strength_label := getStrengthLabel (calculateStrength results)
    recommendations := generateRecommendations results }

/-- Modelled from the spec (section 4.4): the additive delta table as a
single sum, used to compare `_calculate_strength` against the documented
policy. -/
def specDeltaSum (r : DetectorResults) : ℤ :=
  (if r.length ≥ 8 then 20 else 0) + (if r.length ≥ 12 then 10 else 0) +
    (if r.length ≥ 16 then 10 else 0) +
    (if r.has_uppercase then 15 else 0) + (if r.has_lowercase then 15 else 0) +
    (if r.has_digits then 15 else 0) + (if r.has_special then 15 else 0) -
    (if r.is_common then 50 else 0) - (if r.has_repeated then 10 else 0) -
    (if r.has_sequential then 10 else 0)

/-- Modelled from the spec (section 4.6): the ordered condition/advice
table for recommendation generation. -/
def recommendationTable (r : DetectorResults) : List (Bool × String) :=
  [(decide (r.length < 12), "Increase length to at least 12 characters"),
   (!r.has_uppercase, "Add uppercase letters"),
   (!r.has_lowercase, "Add lowercase letters"),
   (!r.has_digits, "Include numbers"),
   (!r.has_special, "Add special characters (!@#$%^&*)"),
   (r.is_common, "Avoid common passwords - choose something unique"),
   (r.has_repeated, "Remove repeated character sequences"),
   (r.has_sequential, "Avoid sequential patterns (abc, 123)")]

/-- Modelled from the spec (section 4.6): keep the advice of exactly the
conditions that hold, in table order, with the single fallback entry when
none hold. -/
def specRecommendations (r : DetectorResults) : List String :=
  let fired := ((recommendationTable r).filter fun e => e.1).map fun e => e.2
  if fired.isEmpty then ["Excellent! Consider using a password manager"] else fired

/-- The five motifs of `_check_sequential` together with their exact
character reversals. -/
def motifsWithReversals : List (List Char) :=
  ["abc".data, "cba".data, "123".data, "321".data, "xyz".data, "zyx".data,
   "qwe".data, "ewq".data, "asd".data, "dsa".data]

/-- Modelled from the spec (section 4.3): the documented entropy formula,
`-(count/length) * log2(count/length)` accumulated over distinct
characters, multiplied by the length and rounded to two decimals. -/
noncomputable def specEntropy (password : List Char) : ℚ :=
  let length : ℝ := password.length
  let perSymbol := (counterValues password).foldl
    (fun entropy count =>
      entropy - ((count : ℝ) / length) * Real.logb 2 ((count : ℝ) / length))
    0
  ((round (100 * (perSymbol * length)) : ℤ) : ℚ) / 100

theorem analyze_strength_score (password : List Char) :
    (analyze_password password).strength_score =
      calculateStrength (detectorResults password) := rfl

theorem analyze_recommendations (password : List Char) :
    (analyze_password password).recommendations =
      generateRecommendations (detectorResults password) := rfl

theorem ite_add_zero {C : Prop} [Decidable C] (x a : ℤ) :
    (if C then x + a else x) = x + (if C then a else 0) := by
  split_ifs <;> simp

theorem ite_sub_zero {C : Prop} [Decidable C] (x a : ℤ) :
    (if C then x - a else x) = x - (if C then a else 0) := by
  split_ifs <;> simp

theorem calculateStrength_eq_clamp (r : DetectorResults) :
    calculateStrength r = max 0 (min 100 (specDeltaSum r)) := by
  simp only [calculateStrength, specDeltaSum, ite_add_zero, ite_sub_zero]
  ring_nf

theorem specDeltaSum_dvd (r : DetectorResults) : (5 : ℤ) ∣ specDeltaSum r := by
  unfold specDeltaSum
  apply dvd_sub
  apply dvd_sub
  apply dvd_sub
  repeat' apply dvd_add
  all_goals split_ifs <;> decide

/-- C1: for every password the strength score is the clamped additive
policy of spec section 4.4 applied to the detector outputs (and nothing
else), hence lies in `[0, 100]`. -/
theorem score_is_clamped_additive_policy (password : List Char) :
    (analyze_password password).strength_score =
      max 0 (min 100 (specDeltaSum (detectorResults password))) ∧
    0 ≤ (analyze_password password).strength_score ∧
    (analyze_password password).strength_score ≤ 100 := by
  rw [analyze_strength_score, calculateStrength_eq_clamp]
  refine ⟨rfl, ?_, ?_⟩ <;> omega

/-- C10: every delta of the scoring policy and both clamp bounds are
multiples of 5, so every reachable strength score is a multiple of 5. -/
theorem score_multiple_of_five (password : List Char) :
    (5 : ℤ) ∣ (analyze_password password).strength_score := by
  rw [analyze_strength_score, calculateStrength_eq_clamp]
  have h := specDeltaSum_dvd (detectorResults password)
  omega

/-- C5: the label is the step function of the score with inclusive lower
band bounds, and always one of the four documented labels. -/
theorem label_matches_score_bands (score : ℤ) :
    (score < 40 → getStrengthLabel score = "Weak") ∧
    (40 ≤ score → score < 70 → getStrengthLabel score = "Moderate") ∧
    (70 ≤ score → score < 90 → getStrengthLabel score = "Strong") ∧
    (90 ≤ score → getStrengthLabel score = "Very Strong") ∧
    getStrengthLabel score ∈ ["Weak", "Moderate", "Strong", "Very Strong"] := by
  unfold getStrengthLabel
  split_ifs <;> simp_all <;> omega

theorem label_matches_score_bands_witness :
    getStrengthLabel 90 = "Very Strong" :=
  (label_matches_score_bands 90).2.2.2.1 (by norm_num)

/-- C2 counterexample: for the input "abcDEF123!@#" the analyzer's score
is not 90 (the spec's delta arithmetic 20+10+15*4-10 actually sums to 80). -/
theorem abcDEF123_score_not_ninety :
    ¬((analyze_password "abcDEF123!@#".data).strength_score = 90 ∧
      (analyze_password "abcDEF123!@#".data).strength_label = "Very Strong") := by
  decide

/-- C2 amended: for the input "abcDEF123!@#" the analysis reports
`has_sequential = true`, score 80 (= 20+10+15*4-10) and the label Strong. -/
theorem abcDEF123_analysis :
    (analyze_password "abcDEF123!@#".data).has_sequential = true ∧
    (analyze_password "abcDEF123!@#".data).strength_score = 80 ∧
    (analyze_password "abcDEF123!@#".data).strength_label = "Strong" := by
  decide

theorem generateRecommendations_eq_spec (r : DetectorResults) :
    generateRecommendations r = specRecommendations r := by
  obtain ⟨len, u, l, d, s, c, rep, seq⟩ := r
  by_cases h : len < 12 <;>
    cases u <;> cases l <;> cases d <;> cases s <;> cases c <;> cases rep <;> cases seq <;>
      simp [generateRecommendations, specRecommendations, recommendationTable, h]

/-- C6: the recommendation list is exactly the advice of the conditions
that hold, tested in the fixed source order, with the single fallback
entry when none hold; in particular it is never empty. -/
theorem recommendations_fixed_order (password : List Char) :
    (analyze_password password).recommendations =
      specRecommendations (detectorResults password) ∧
    (analyze_password password).recommendations.isEmpty = false := by
  rw [analyze_recommendations, generateRecommendations_eq_spec]
  refine ⟨rfl, ?_⟩
  simp only [specRecommendations]
  split_ifs <;> simp_all

theorem checkRepeatedChars_iff : ∀ (password : List Char),
    checkRepeatedChars password = true ↔
      ∃ i, i + 2 < password.length ∧
        password[i]? = password[i + 1]? ∧ password[i + 1]? = password[i + 2]?
  | [] => by
      refine iff_of_false (by simp [checkRepeatedChars]) ?_
      rintro ⟨i, hi, -⟩
      simp only [List.length_nil] at hi
      omega
  | [_] => by
      refine iff_of_false (by simp [checkRepeatedChars]) ?_
      rintro ⟨i, hi, -⟩
      simp only [List.length_cons, List.length_nil] at hi
      omega
  | [_, _] => by
      refine iff_of_false (by simp [checkRepeatedChars]) ?_
      rintro ⟨i, hi, -⟩
      simp only [List.length_cons, List.length_nil] at hi
      omega
  | a :: b :: c :: rest => by
      have ih := checkRepeatedChars_iff (b :: c :: rest)
      simp only [checkRepeatedChars, Bool.or_eq_true, Bool.and_eq_true, beq_iff_eq]
      constructor
      · rintro (⟨hab, hbc⟩ | h)
        · exact ⟨0, by simp only [List.length_cons]; omega,
            by simp [hab], by simp [hbc]⟩
        · obtain ⟨i, hi, h1, h2⟩ := ih.1 h
          refine ⟨i + 1, ?_, ?_, ?_⟩
          · simp only [List.length_cons] at hi ⊢
            omega
          · simpa using h1
          · simpa using h2
      · rintro ⟨i, hi, h1, h2⟩
        match i with
        | 0 =>
          left
          simp only [List.getElem?_cons_zero, List.getElem?_cons_succ,
            Option.some.injEq] at h1 h2
          exact ⟨h1, h2⟩
        | j + 1 =>
          right
          apply ih.2
          refine ⟨j, ?_, ?_, ?_⟩
          · simp only [List.length_cons] at hi ⊢
            omega
          · simpa using h1
          · simpa using h2

/-- C7: the repeated-run check is a total function that is true exactly
when three consecutive positions hold the same character, and on every
password shorter than 3 characters it is false. -/
theorem repeated_run_total (password : List Char) :
    (checkRepeatedChars password = true ↔
      ∃ i, i + 2 < password.length ∧
        password[i]? = password[i + 1]? ∧ password[i + 1]? = password[i + 2]?) ∧
    (password.length < 3 → checkRepeatedChars password = false) := by
  refine ⟨checkRepeatedChars_iff password, fun h => ?_⟩
  cases hc : checkRepeatedChars password with
  | false => rfl
  | true =>
    obtain ⟨i, hi, -, -⟩ := (checkRepeatedChars_iff password).1 hc
    omega

theorem repeated_run_total_witness :
    checkRepeatedChars "ab".data = false :=
  (repeated_run_total "ab".data).2 (by decide)

theorem containsSubstring_iff (needle : List Char) : ∀ (haystack : List Char),
    containsSubstring needle haystack = true ↔ needle <:+: haystack
  | [] => by
      simp [containsSubstring, List.isEmpty_iff, List.infix_nil]
  | c :: rest => by
      have ih := containsSubstring_iff needle rest
      simp only [containsSubstring, Bool.or_eq_true, List.isPrefixOf_iff_prefix, ih,
        List.infix_cons_iff]

theorem checkSequential_iff (password : List Char) :
    checkSequential password = true ↔
      ∃ m ∈ motifsWithReversals, m <:+: pyLower password := by
  unfold checkSequential
  simp only [sequences, motifsWithReversals, List.any_cons, List.any_nil,
    Bool.or_eq_true, containsSubstring_iff, List.exists_mem_cons_iff,
    show ("abc".data).reverse = "cba".data from rfl,
    show ("123".data).reverse = "321".data from rfl,
    show ("xyz".data).reverse = "zyx".data from rfl,
    show ("qwe".data).reverse = "ewq".data from rfl,
    show ("asd".data).reverse = "dsa".data from rfl]
  simp only [List.not_mem_nil, false_and, exists_false, or_false, Bool.false_eq_true]
  tauto

/-- C8: the sequential-pattern flag holds exactly when the lowercased
password contains one of the five motifs or its exact reversal as a
contiguous substring, and other 3-character runs such as "bcd" and "234"
do not trigger it. -/
theorem sequential_pattern_motifs :
    (∀ password : List Char, (checkSequential password = true ↔
        ∃ m ∈ motifsWithReversals, m <:+: pyLower password)) ∧
    checkSequential "bcd".data = false ∧
    checkSequential "234".data = false :=
  ⟨checkSequential_iff, by decide, by decide⟩

/-- C9: the uppercase and lowercase detectors test exactly the ASCII
ranges while the digit detector tests the full Unicode decimal-digit
category: the accented letters do not set the case flags, yet the
Arabic-Indic digit at code point 0x663 sets the digit flag although it
is outside the ASCII range 0-9. -/
theorem character_class_unicode_asymmetry :
    (∀ password : List Char,
      ((detectorResults password).has_uppercase = true ↔
        ∃ c ∈ password, 'A' ≤ c ∧ c ≤ 'Z') ∧
      ((detectorResults password).has_lowercase = true ↔
        ∃ c ∈ password, 'a' ≤ c ∧ c ≤ 'z') ∧
      ((detectorResults password).has_digits = true ↔
        ∃ c ∈ password, isRegexDigit c = true)) ∧
    (detectorResults [Char.ofNat 0xC9]).has_uppercase = false ∧
    (detectorResults [Char.ofNat 0xE9]).has_lowercase = false ∧
    (detectorResults [Char.ofNat 0x663]).has_digits = true ∧
    (decide ('0' ≤ Char.ofNat 0x663) && decide (Char.ofNat 0x663 ≤ '9')) = false := by
  refine ⟨fun password => ⟨?_, ?_, ?_⟩, by decide, by decide, by decide, by decide⟩ <;>
    simp [detectorResults, List.any_eq_true]

theorem logb_two_half : Real.logb 2 ((1 : ℝ) / 2) = -1 := by
  rw [one_div, Real.logb_inv]
  norm_num [Real.logb_self_eq_one]

theorem calculateEntropy_single : calculateEntropy "a".data = -83 / 25 := by
  have hc : counterValues "a".data = [1] := by decide
  have hl : ("a".data).length = 1 := by decide
  norm_num [calculateEntropy, hc, hl, pyAnd, pyRound2, entropyConstant, round_eq]

theorem calculateEntropy_nil : calculateEntropy ([] : List Char) = 0 := by
  norm_num [calculateEntropy, counterValues, pyRound2, round_eq]

theorem calculateEntropy_ab : calculateEntropy "ab".data = -83 / 25 := by
  have hc : counterValues "ab".data = [1, 1] := by decide
  have hl : ("ab".data).length = 2 := by decide
  norm_num [calculateEntropy, hc, hl, pyAnd, pyRound2, entropyConstant, round_eq]

theorem specEntropy_ab : specEntropy "ab".data = 2 := by
  have hc : counterValues "ab".data = [1, 1] := by decide
  have hl : ("ab".data).length = 2 := by decide
  norm_num [specEntropy, hc, hl, logb_two_half, round_eq]

/-- C3: the spec requires a nonnegative entropy estimate, but the
accumulator `probability * (probability and (probability * 3.321928))`
in `_calculate_entropy` subtracts a positive quantity per distinct
character, so the estimate is negative on non-empty passwords: for "a"
it is -3.32.  Only the empty-password clause (result exactly 0) holds. -/
theorem entropy_negative_on_nonempty :
    calculateEntropy "a".data = -83 / 25 ∧
    calculateEntropy "a".data < 0 ∧
    calculateEntropy ([] : List Char) = 0 := by
  refine ⟨calculateEntropy_single, ?_, calculateEntropy_nil⟩
  rw [calculateEntropy_single]
  norm_num

/-- C4: at the input "ab" the code's entropy value (-3.32) differs from
the documented formula (which gives exactly 2.00, since log2(1/2) = -1):
multiplying the probability itself by 3.321928 is not a base-2 logarithm
of the probability, so the two do not agree to two decimal places. -/
theorem entropy_technique_not_log2 :
    calculateEntropy "ab".data = -83 / 25 ∧
    specEntropy "ab".data = 2 ∧
    calculateEntropy "ab".data < specEntropy "ab".data := by
  refine ⟨calculateEntropy_ab, specEntropy_ab, ?_⟩
  rw [calculateEntropy_ab, specEntropy_ab]
  norm_num

end PasswordAnalyzer
